import Mathlib

/-!
Shallow embedding of the SafeStack runtime support
(`src/external/compiler-rt/lib/safestack/safestack.cc`).

Machine integers (`size_t`, pointers) are modelled as `Nat` reduced modulo
`2 ^ 64` wherever the C code performs arithmetic that may wrap.  A null
pointer is the value `0`, matching the C code's truth tests on pointers.
Fatal checks (`CHECK_*`, `MmapOrDie` failure) are modelled by returning
`none`: a `none` result is a process abort, a `some` result is the normal
continuation.  Environment behaviour (the address returned by `mmap`, the
resource-limit query, the caller's attributes) is passed in as explicit
parameters.
-/

/-- Width of `size_t` / pointers: the code targets 64-bit platforms. -/
def wordSize : Nat := 2 ^ 64

/-- `kStackAlign`: minimum stack alignment for the unsafe stack (line 55). -/
def kStackAlign : Nat := 16

/-- `kDefaultUnsafeStackSize` (line 59): used only when the stack rlimit is
infinity (or the query fails). -/
def kDefaultUnsafeStackSize : Nat := 0x2800000

/-- `PAGE_SIZE` from `<sys/user.h>` on the targeted platforms. -/
def PAGE_SIZE : Nat := 4096

/-- `PTHREAD_DESTRUCTOR_ITERATIONS` from `<limits.h>` (glibc value). -/
def PTHREAD_DESTRUCTOR_ITERATIONS : Nat := 4

/-- `sizeof(struct tinfo)` (lines 112-119): two pointers to functions, one
data pointer and two `size_t` fields, 5 × 8 bytes on a 64-bit platform. -/
def sizeofTinfo : Nat := 40

/-- Pointer subtraction `a - b` modulo the address-space width. -/
def subMod (a b : Nat) : Nat := (a + (wordSize - b % wordSize)) % wordSize

/-- The per-thread state of the runtime: the globally visible
`__safestack_unsafe_stack_ptr` slot (line 72), the bookkeeping thread-locals
`unsafe_stack_start`, `unsafe_stack_size`, `unsafe_stack_guard`
(lines 77-79), and this thread's value for `thread_cleanup_key`
(null = `0`, the state before any `pthread_setspecific`). -/
structure ThreadState where
  safestack_unsafe_stack_ptr : Nat
  unsafe_stack_start : Nat
  unsafe_stack_size : Nat
  unsafe_stack_guard : Nat
  cleanup_key_value : Nat
deriving Repr, DecidableEq

/-- The state of a freshly created thread: all thread-locals are
zero-initialised (`nullptr` / `0`), no key value set. -/
def initialThreadState : ThreadState := ⟨0, 0, 0, 0, 0⟩

/-- Result of a successful `unsafe_stack_alloc`: where the mapping was
placed and how large it is, which range `MprotectNoAccess` made
inaccessible, and the returned usable base address. -/
structure AllocResult where
  mappingStart : Nat
  mappingSize : Nat
  protStart : Nat
  protSize : Nat
  base : Nat
deriving Repr, DecidableEq

/-- `unsafe_stack_alloc(size, guard)` (lines 81-86).
`CHECK_GE(size + guard, size)` compares the wrapped sum against `size`;
`MmapOrDie` is modelled by the environment parameter `mmapResult`
(`none` = the mapping cannot be made, which is a fatal abort;
`some addr` = a fresh mapping of `size + guard` bytes at `addr`).
`MprotectNoAccess((uptr)addr, (uptr)guard)` protects the first `guard`
bytes of the mapping; the function returns `(char *)addr + guard`. -/
def unsafe_stack_alloc (size guard : Nat) (mmapResult : Option Nat) :
    Option AllocResult :=
  if (size + guard) % wordSize < size then none
  else
    match mmapResult with
    | none => none
    | some addr =>
        some { mappingStart := addr
               mappingSize := (size + guard) % wordSize
               protStart := addr
               protSize := guard
               base := (addr + guard) % wordSize }

/-- `unsafe_stack_setup(start, size, guard)` (lines 88-98).
Two overflow checks, then `stack_ptr = start + size`, a 16-byte alignment
check (`stack_ptr & (kStackAlign - 1)`), and the four thread-local
stores. -/
def unsafe_stack_setup (start size guard : Nat) (s : ThreadState) :
    Option ThreadState :=
  if (start + size) % wordSize < start then none
  else if (start + guard) % wordSize < start then none
  else
    if ((start + size) % wordSize) % kStackAlign ≠ 0 then none
    else
      some { s with
             safestack_unsafe_stack_ptr := (start + size) % wordSize
             unsafe_stack_start := start
             unsafe_stack_size := size
             unsafe_stack_guard := guard }

/-- One `UnmapOrDie` call: the start address and the length handed to the
unmap primitive. -/
structure UnmapCall where
  start : Nat
  size : Nat
deriving Repr, DecidableEq

/-- `unsafe_stack_free()` (lines 100-106): unmaps
`unsafe_stack_start - unsafe_stack_guard` for
`unsafe_stack_size + unsafe_stack_guard` bytes, but only when
`unsafe_stack_start` is non-null; `unsafe_stack_start` is nulled
unconditionally.  The second component records the unmap performed, if
any. -/
def unsafe_stack_free (s : ThreadState) : ThreadState × Option UnmapCall :=
  if s.unsafe_stack_start ≠ 0 then
    ({ s with unsafe_stack_start := 0 },
     some { start := subMod s.unsafe_stack_start s.unsafe_stack_guard
            size := (s.unsafe_stack_size + s.unsafe_stack_guard) % wordSize })
  else
    ({ s with unsafe_stack_start := 0 }, none)

/-- `thread_cleanup_handler(void *_iter)` (lines 142-154): the destructor
registered for `thread_cleanup_key`.  `iter` is the key value the thread
had when the destructor fired.  For `iter < PTHREAD_DESTRUCTOR_ITERATIONS`
it re-arms the key with `iter + 1`; on the last iteration it calls
`unsafe_stack_free`. -/
def thread_cleanup_handler (iter : Nat) (s : ThreadState) :
    ThreadState × Option UnmapCall :=
  if iter < PTHREAD_DESTRUCTOR_ITERATIONS then
    ({ s with cleanup_key_value := iter + 1 }, none)
  else
    unsafe_stack_free s

/-- One destructor pass of the pthread TLS facility for
`thread_cleanup_key`: if the thread's key value is non-null, the facility
clears it to null and invokes the destructor with the old value; if the
value is null the destructor is not invoked. -/
def destructor_pass (s : ThreadState) : ThreadState × Option UnmapCall :=
  if s.cleanup_key_value ≠ 0 then
    thread_cleanup_handler s.cleanup_key_value { s with cleanup_key_value := 0 }
  else
    (s, none)

/-- `n` consecutive destructor passes; the second component counts how many
of them performed an unmap (a region release). -/
def runPasses : Nat → ThreadState → ThreadState × Nat
  | 0, s => (s, 0)
  | n + 1, s =>
      let p := destructor_pass s
      let r := runPasses n p.1
      (r.1, (if p.2.isSome then 1 else 0) + r.2)

/-- `struct tinfo` (lines 112-119): the handoff record the interceptor
writes into the tail of the new region's usable memory.  Function and data
pointers are modelled as `Nat` identifiers. -/
structure Tinfo where
  start_routine : Nat
  start_routine_arg : Nat
  unsafe_stack_start : Nat
  unsafe_stack_size : Nat
  unsafe_stack_guard : Nat
deriving Repr, DecidableEq

/-- What `thread_start` produces when it does not abort: the thread state
after setup and arming, the value returned as the thread's result, and the
log of user entry-point invocations `(routine, argument)` it made. -/
structure StartResult where
  state : ThreadState
  result : Nat
  calls : List (Nat × Nat)
deriving Repr, DecidableEq

/-- `thread_start(void *arg)` (lines 123-139): reads `start_routine` and
`start_routine_arg` out of the handoff record, calls
`unsafe_stack_setup` on the handed-off region, arms the cleanup key with
`(void *)1`, then calls `start_routine(start_routine_arg)` and returns its
result.  `sem routine arg` gives the value the user entry point returns. -/
def thread_start (ti : Tinfo) (sem : Nat → Nat → Nat) (s : ThreadState) :
    Option StartResult :=
  let start_routine := ti.start_routine
  let start_routine_arg := ti.start_routine_arg
  match unsafe_stack_setup ti.unsafe_stack_start ti.unsafe_stack_size
      ti.unsafe_stack_guard s with
  | none => none
  | some s1 =>
      let s2 := { s1 with cleanup_key_value := 1 }
      some { state := s2
             result := sem start_routine start_routine_arg
             calls := [(start_routine, start_routine_arg)] }

/-- Stack size requested for a new thread (lines 161-174): read from the
caller's attributes when given, from the platform's default attributes
otherwise. -/
def attr_size (attr : Option (Nat × Nat)) (defaults : Nat × Nat) : Nat :=
  match attr with
  | some p => p.1
  | none => defaults.1

/-- Guard size requested for a new thread (lines 161-174), analogous to
`attr_size`. -/
def attr_guard (attr : Option (Nat × Nat)) (defaults : Nat × Nat) : Nat :=
  match attr with
  | some p => p.2
  | none => defaults.2

/-- What the `pthread_create` interceptor produces when it does not abort:
the allocation it made, the address `addr + size - sizeof(struct tinfo)`
at which it placed the handoff record (kept as an integer so that a
placement below the usable base is visible), and the record's contents. -/
structure CreateOk where
  alloc : AllocResult
  tinfoAddr : Int
  ti : Tinfo
deriving Repr, DecidableEq

/-- `INTERCEPTOR(int, pthread_create, ...)` (lines 157-190): determine
`size` and `guard` from the attributes (or the defaults), run the three
`CHECK`s (`size != 0`, `size & (kStackAlign-1) == 0`,
`guard & (PAGE_SIZE-1) == 0`), allocate the region, and write the handoff
record at `addr + size - sizeof(struct tinfo)`.  The real spawn then runs
`thread_start` on the record in the new thread. -/
def intercept_pthread_create (attr : Option (Nat × Nat))
    (defaults : Nat × Nat) (start_routine arg : Nat)
    (mmapResult : Option Nat) : Option CreateOk :=
  let size := attr_size attr defaults
  let guard := attr_guard attr defaults
  if size = 0 then none
  else if size % kStackAlign ≠ 0 then none
  else if guard % PAGE_SIZE ≠ 0 then none
  else
    match unsafe_stack_alloc size guard mmapResult with
    | none => none
    | some ar =>
        some { alloc := ar
               tinfoAddr := (ar.base : Int) + (size : Int) - (sizeofTinfo : Int)
               ti := { start_routine := start_routine
                       start_routine_arg := arg
                       unsafe_stack_start := ar.base
                       unsafe_stack_size := size
                       unsafe_stack_guard := guard } }

/-- Outcome of the `getrlimit(RLIMIT_STACK, ...)` query in
`__safestack_init`: the call can fail, report `RLIM_INFINITY`, or report a
finite current limit. -/
inductive RlimitResult where
  | fail : RlimitResult
  | infinity : RlimitResult
  | finite : Nat → RlimitResult
deriving Repr, DecidableEq

/-- Main-thread stack size determination (lines 198-204): `size` starts as
`kDefaultUnsafeStackSize` and is overwritten with the current stack rlimit
when the `getrlimit` query succeeds and the limit is not
`RLIM_INFINITY`. -/
def rlimit_main_size (rl : RlimitResult) : Nat :=
  match rl with
  | RlimitResult.finite cur => cur
  | _ => kDefaultUnsafeStackSize

/-- `__safestack_init()` (lines 197-216): determine the main thread's
stack size from the rlimit query, fix `guard = 4096`, allocate the main
thread's region and install it.  Interceptor installation and
`pthread_key_create` do not touch this thread's state (key creation sets
no thread's value). -/
def safestack_init (rl : RlimitResult) (mmapResult : Option Nat)
    (s : ThreadState) : Option (ThreadState × AllocResult) :=
  match unsafe_stack_alloc (rlimit_main_size rl) 4096 mmapResult with
  | none => none
  | some ar =>
      match unsafe_stack_setup ar.base (rlimit_main_size rl) 4096 s with
      | none => none
      | some s1 => some (s1, ar)

/-! ### Inversion lemmas for the embedded operations -/

lemma setup_eq_some {start size guard : Nat} {s s1 : ThreadState}
    (h : unsafe_stack_setup start size guard s = some s1) :
    s1 = { s with
           safestack_unsafe_stack_ptr := (start + size) % wordSize
           unsafe_stack_start := start
           unsafe_stack_size := size
           unsafe_stack_guard := guard } ∧
    ((start + size) % wordSize) % kStackAlign = 0 := by
  unfold unsafe_stack_setup at h
  split at h
  · simp at h
  · split at h
    · simp at h
    · split at h
      · simp at h
      · rename_i hc
        exact ⟨(Option.some_inj.mp h).symm, not_ne_iff.mp hc⟩

lemma alloc_eq_some {size guard : Nat} {mmap : Option Nat} {ar : AllocResult}
    (h : unsafe_stack_alloc size guard mmap = some ar) :
    size ≤ (size + guard) % wordSize ∧
    mmap = some ar.mappingStart ∧
    ar = { mappingStart := ar.mappingStart
           mappingSize := (size + guard) % wordSize
           protStart := ar.mappingStart
           protSize := guard
           base := (ar.mappingStart + guard) % wordSize } := by
  unfold unsafe_stack_alloc at h
  split at h
  · simp at h
  · rename_i hlt
    cases mmap with
    | none => simp at h
    | some addr =>
        simp only [Option.some_inj] at h
        subst h
        exact ⟨by omega, rfl, rfl⟩

lemma intercept_eq_some {attr : Option (Nat × Nat)} {defaults : Nat × Nat}
    {f a : Nat} {mmap : Option Nat} {r : CreateOk}
    (h : intercept_pthread_create attr defaults f a mmap = some r) :
    attr_size attr defaults ≠ 0 ∧
    attr_size attr defaults % kStackAlign = 0 ∧
    attr_guard attr defaults % PAGE_SIZE = 0 ∧
    unsafe_stack_alloc (attr_size attr defaults) (attr_guard attr defaults)
      mmap = some r.alloc ∧
    r.tinfoAddr =
      (r.alloc.base : Int) + (attr_size attr defaults : Int) -
        (sizeofTinfo : Int) ∧
    r.ti = { start_routine := f
             start_routine_arg := a
             unsafe_stack_start := r.alloc.base
             unsafe_stack_size := attr_size attr defaults
             unsafe_stack_guard := attr_guard attr defaults } := by
  simp only [intercept_pthread_create] at h
  split at h
  · simp at h
  · split at h
    · simp at h
    · split at h
      · simp at h
      · rename_i h0 h1 h2
        split at h
        · simp at h
        · rename_i ar halloc
          obtain rfl := Option.some_inj.mp h.symm
          exact ⟨h0, not_ne_iff.mp h1, not_ne_iff.mp h2, halloc, rfl, rfl⟩

lemma thread_start_eq_some {ti : Tinfo} {sem : Nat → Nat → Nat}
    {s : ThreadState} {r : StartResult}
    (h : thread_start ti sem s = some r) :
    ∃ s1, unsafe_stack_setup ti.unsafe_stack_start ti.unsafe_stack_size
        ti.unsafe_stack_guard s = some s1 ∧
      r = { state := { s1 with cleanup_key_value := 1 }
            result := sem ti.start_routine ti.start_routine_arg
            calls := [(ti.start_routine, ti.start_routine_arg)] } := by
  unfold thread_start at h
  split at h
  · simp at h
  · rename_i s1 hsetup
    exact ⟨s1, hsetup, (Option.some_inj.mp h).symm⟩

lemma destructor_pass_key_zero {s : ThreadState}
    (h : s.cleanup_key_value = 0) : destructor_pass s = (s, none) := by
  simp [destructor_pass, h]

lemma runPasses_key_zero (n : Nat) (s : ThreadState)
    (h : s.cleanup_key_value = 0) : runPasses n s = (s, 0) := by
  induction n with
  | zero => rfl
  | succ n ih => simp [runPasses, destructor_pass_key_zero h, ih]

lemma runPasses_add (a b : Nat) (s : ThreadState) :
    runPasses (a + b) s =
      ((runPasses b (runPasses a s).1).1,
       (runPasses a s).2 + (runPasses b (runPasses a s).1).2) := by
  induction a generalizing s with
  | zero => simp [runPasses]
  | succ a ih =>
      rw [Nat.succ_add]
      simp [runPasses, ih, Nat.add_assoc]

/-! ### Claims -/

/-- C2: the per-thread install step `unsafe_stack_setup` sets the thread's
current-stack-pointer slot to `base + usableSize` and aborts fatally
(returns `none`) unless that value is a multiple of 16; consequently every
thread creation that reaches user code through `thread_start` has an
installed stack pointer that is a multiple of 16. -/
theorem C2_install_sets_aligned_ptr :
    (∀ start size guard s s1,
        unsafe_stack_setup start size guard s = some s1 →
        s1.safestack_unsafe_stack_ptr = (start + size) % wordSize ∧
        s1.safestack_unsafe_stack_ptr % kStackAlign = 0) ∧
    (∀ start size guard s,
        ((start + size) % wordSize) % kStackAlign ≠ 0 →
        unsafe_stack_setup start size guard s = none) ∧
    (∀ ti sem s r, thread_start ti sem s = some r →
        r.state.safestack_unsafe_stack_ptr % kStackAlign = 0) := by
  refine ⟨?_, ?_, ?_⟩
  · intro start size guard s s1 h
    obtain ⟨heq, hal⟩ := setup_eq_some h
    subst heq
    exact ⟨rfl, hal⟩
  · intro start size guard s h
    simp [unsafe_stack_setup, h]
  · intro ti sem s r h
    obtain ⟨s1, hsetup, heq⟩ := thread_start_eq_some h
    subst heq
    obtain ⟨heq1, hal⟩ := setup_eq_some hsetup
    subst heq1
    exact hal

/-- Witness for C2: a start/size pair whose top is not 16-aligned makes the
install step abort. -/
theorem C2_install_sets_aligned_ptr_w :
    unsafe_stack_setup 8 0 0 initialThreadState = none :=
  C2_install_sets_aligned_ptr.2.1 8 0 0 initialThreadState (by decide)

/-- C10: `unsafe_stack_free` unmaps only when the thread's region-start
field is non-null, unconditionally nulls that field, and a second call (or
a call with no region installed) performs no unmap: free twice equals free
once, with no double unmap. -/
theorem C10_free_idempotent (s : ThreadState) :
    (unsafe_stack_free s).1.unsafe_stack_start = 0 ∧
    (s.unsafe_stack_start = 0 → (unsafe_stack_free s).2 = none) ∧
    (s.unsafe_stack_start ≠ 0 → (unsafe_stack_free s).2.isSome = true) ∧
    unsafe_stack_free (unsafe_stack_free s).1 =
      ((unsafe_stack_free s).1, none) := by
  obtain ⟨p, st, sz, g, k⟩ := s
  by_cases h : st = 0 <;> simp [unsafe_stack_free, h]

/-- Witness for C10: freeing with no region installed performs no unmap. -/
theorem C10_free_idempotent_w :
    (unsafe_stack_free ⟨0, 0, 0, 0, 0⟩).2 = none :=
  (C10_free_idempotent ⟨0, 0, 0, 0, 0⟩).2.1 rfl

/-- C3: `unsafe_stack_alloc` aborts when `size + guard` wraps modulo the
address-space width or when the mapping cannot be made; otherwise it makes
a single contiguous mapping of `size + guard` bytes, makes exactly its
first `guard` bytes inaccessible, and returns `mappingStart + guard`.  For
`size = 1 <<< 20`, `guard = 4096` the mapping is `1 <<< 20 + 4096` bytes
and the installed stack pointer equals `mappingStart + 4096 + 1 <<< 20`. -/
theorem C3_alloc_guarded_region (size guard : Nat) (mmap : Option Nat)
    (hsz : size < wordSize) (hg : guard < wordSize) :
    (wordSize ≤ size + guard → unsafe_stack_alloc size guard mmap = none) ∧
    (unsafe_stack_alloc size guard none = none) ∧
    (∀ addr, size + guard < wordSize →
        unsafe_stack_alloc size guard (some addr) =
          some { mappingStart := addr
                 mappingSize := size + guard
                 protStart := addr
                 protSize := guard
                 base := (addr + guard) % wordSize }) ∧
    (∀ addr s, addr % kStackAlign = 0 → addr + (2 ^ 20 + 4096) < wordSize →
        ∃ ar s1,
          unsafe_stack_alloc (2 ^ 20) 4096 (some addr) = some ar ∧
          ar.mappingSize = 2 ^ 20 + 4096 ∧
          ar.protStart = ar.mappingStart ∧
          ar.protSize = 4096 ∧
          ar.base = addr + 4096 ∧
          unsafe_stack_setup ar.base (2 ^ 20) 4096 s = some s1 ∧
          s1.safestack_unsafe_stack_ptr = addr + 4096 + 2 ^ 20) := by
  refine ⟨?_, ?_, ?_, ?_⟩
  · intro hle
    have hlt : (size + guard) % wordSize < size := by
      simp only [wordSize] at hsz hg hle ⊢
      omega
    simp [unsafe_stack_alloc, hlt]
  · unfold unsafe_stack_alloc
    split <;> rfl
  · intro addr hlt
    have hmod := Nat.mod_eq_of_lt hlt
    have hnot : ¬ (size + guard < size) := by omega
    simp [unsafe_stack_alloc, hmod, hnot]
  · intro addr s ha hlt
    obtain ⟨p, st, sz, g, k⟩ := s
    simp only [wordSize, kStackAlign] at ha hlt
    refine ⟨{ mappingStart := addr
              mappingSize := 2 ^ 20 + 4096
              protStart := addr
              protSize := 4096
              base := addr + 4096 },
      { safestack_unsafe_stack_ptr := addr + 4096 + 2 ^ 20
        unsafe_stack_start := addr + 4096
        unsafe_stack_size := 2 ^ 20
        unsafe_stack_guard := 4096
        cleanup_key_value := k },
      ?_, rfl, rfl, rfl, rfl, ?_, rfl⟩
    · simp only [unsafe_stack_alloc, wordSize]
      rw [if_neg (by omega)]
      have e1 : (2 ^ 20 + 4096) % 2 ^ 64 = 2 ^ 20 + 4096 := by norm_num
      have e2 : (addr + 4096) % 2 ^ 64 = addr + 4096 :=
        Nat.mod_eq_of_lt (by omega)
      rw [e1, e2]
    · simp only [unsafe_stack_setup, wordSize, kStackAlign]
      rw [if_neg (by omega), if_neg (by omega),
        if_neg (by simp only [ne_eq, not_not]; omega)]
      have e3 : (addr + 4096 + 2 ^ 20) % 2 ^ 64 = addr + 4096 + 2 ^ 20 :=
        Nat.mod_eq_of_lt (by omega)
      rw [e3]

/-- Witness for C3: a `size + guard` sum that wraps the address space makes
the allocator abort. -/
theorem C3_alloc_guarded_region_w :
    unsafe_stack_alloc 16 (wordSize - 8) (some 4096) = none :=
  (C3_alloc_guarded_region 16 (wordSize - 8) (some 4096) (by decide)
    (by decide)).1 (by decide)

lemma destructor_pass_armed (p st sz g i : Nat) (h0 : i ≠ 0)
    (h1 : i < PTHREAD_DESTRUCTOR_ITERATIONS) :
    destructor_pass ⟨p, st, sz, g, i⟩ = (⟨p, st, sz, g, i + 1⟩, none) := by
  simp [destructor_pass, thread_cleanup_handler, h0, h1]

lemma destructor_pass_terminal (p st sz g : Nat) (hs : st ≠ 0) :
    destructor_pass ⟨p, st, sz, g, PTHREAD_DESTRUCTOR_ITERATIONS⟩ =
      (⟨p, 0, sz, g, 0⟩,
       some { start := subMod st g, size := (sz + g) % wordSize }) := by
  simp [destructor_pass, thread_cleanup_handler, unsafe_stack_free,
    PTHREAD_DESTRUCTOR_ITERATIONS, hs]

/-- C1: for a thread armed by the trampoline (cleanup key value 1), each
destructor invocation with stored counter below
`PTHREAD_DESTRUCTOR_ITERATIONS` re-arms the key with `counter + 1` and
releases nothing; across the destructor passes the region release happens
exactly once, on the pass where the counter reaches the ceiling, never on
an earlier pass. -/
theorem C1_cleanup_protocol (s : ThreadState)
    (hk : s.cleanup_key_value = 1) (hs : s.unsafe_stack_start ≠ 0) :
    (∀ iter t, iter < PTHREAD_DESTRUCTOR_ITERATIONS →
        thread_cleanup_handler iter t =
          ({ t with cleanup_key_value := iter + 1 }, none)) ∧
    (∀ n, n < PTHREAD_DESTRUCTOR_ITERATIONS → (runPasses n s).2 = 0) ∧
    (∀ n, PTHREAD_DESTRUCTOR_ITERATIONS ≤ n → (runPasses n s).2 = 1) := by
  obtain ⟨p, st, sz, g, k⟩ := s
  have hk1 : k = 1 := hk
  subst hk1
  have hst : st ≠ 0 := hs
  have p1 := destructor_pass_armed p st sz g 1 (by decide) (by decide)
  have p2 := destructor_pass_armed p st sz g 2 (by decide) (by decide)
  have p3 := destructor_pass_armed p st sz g 3 (by decide) (by decide)
  have p4 := destructor_pass_terminal p st sz g hst
  have h4 : runPasses 4 ⟨p, st, sz, g, 1⟩ = (⟨p, 0, sz, g, 0⟩, 1) := by
    simp [runPasses, p1, p2, p3, PTHREAD_DESTRUCTOR_ITERATIONS] at p4 ⊢
    simp [p4]
  refine ⟨?_, ?_, ?_⟩
  · intro iter t hi
    simp [thread_cleanup_handler, hi]
  · intro n hn
    simp only [PTHREAD_DESTRUCTOR_ITERATIONS] at hn
    interval_cases n <;> simp [runPasses, p1, p2, p3]
  · intro n hn
    simp only [PTHREAD_DESTRUCTOR_ITERATIONS] at hn
    obtain ⟨m, rfl⟩ : ∃ m, n = 4 + m := ⟨n - 4, by omega⟩
    rw [runPasses_add, h4, runPasses_key_zero m _ rfl]
    rfl

/-- Witness for C1: an armed thread with a region sees no release in the
first three passes and exactly one release by pass four. -/
theorem C1_cleanup_protocol_w :
    (runPasses 3 ⟨0, 4096, 16384, 4096, 1⟩).2 = 0 ∧
    (runPasses 4 ⟨0, 4096, 16384, 4096, 1⟩).2 = 1 :=
  ⟨(C1_cleanup_protocol ⟨0, 4096, 16384, 4096, 1⟩ rfl (by decide)).2.1 3
      (by decide),
   (C1_cleanup_protocol ⟨0, 4096, 16384, 4096, 1⟩ rfl (by decide)).2.2 4
      (by decide)⟩

/-- C4: for every intercepted thread creation, the trampoline reads the
entry function and argument the creating thread wrote into the handoff
record, installs the handed-off region as the thread's stack state, calls
the entry function on that argument exactly once, and returns its value as
the thread's own result. -/
theorem C4_handoff_calls_once :
    ∀ attr defaults f a mmap r,
      intercept_pthread_create attr defaults f a mmap = some r →
      r.ti.start_routine = f ∧
      r.ti.start_routine_arg = a ∧
      ∀ sem s out, thread_start r.ti sem s = some out →
        out.calls = [(f, a)] ∧
        out.result = sem f a ∧
        out.state.unsafe_stack_start = r.ti.unsafe_stack_start ∧
        out.state.unsafe_stack_size = r.ti.unsafe_stack_size ∧
        out.state.unsafe_stack_guard = r.ti.unsafe_stack_guard := by
  intro attr defaults f a mmap r h
  obtain ⟨-, -, -, -, -, hti⟩ := intercept_eq_some h
  refine ⟨by rw [hti], by rw [hti], ?_⟩
  intro sem s out hst
  obtain ⟨s1, hsetup, heq⟩ := thread_start_eq_some hst
  subst heq
  obtain ⟨heq1, -⟩ := setup_eq_some hsetup
  subst heq1
  exact ⟨by rw [hti], by rw [hti], rfl, rfl, rfl⟩

/-- Witness for C4: a concrete creation with routine `7`, argument `42`
yields exactly the one recorded call `(7, 42)`. -/
theorem C4_handoff_calls_once_w :
    ({ state := ⟨86016, 69632, 16384, 4096, 1⟩
       result := 49
       calls := [(7, 42)] } : StartResult).calls = [(7, 42)] :=
  ((C4_handoff_calls_once (some (16384, 4096)) (0, 0) 7 42 (some 65536)
      { alloc := { mappingStart := 65536
                   mappingSize := 20480
                   protStart := 65536
                   protSize := 4096
                   base := 69632 }
        tinfoAddr := 85976
        ti := { start_routine := 7
                start_routine_arg := 42
                unsafe_stack_start := 69632
                unsafe_stack_size := 16384
                unsafe_stack_guard := 4096 } }
      (by decide)).2.2 (fun x y => x + y) initialThreadState
      { state := ⟨86016, 69632, 16384, 4096, 1⟩
        result := 49
        calls := [(7, 42)] } (by decide)).1

/-- C5: the `pthread_create` interceptor, after determining `size` and
`guard` from the caller's attributes or from the platform defaults, aborts
fatally when `size = 0`, when `size` is not a multiple of 16, or when
`guard` is not page-aligned; such a violation is never surfaced as a
recoverable return value. -/
theorem C5_validation_fatal (attr : Option (Nat × Nat)) (defaults : Nat × Nat)
    (f a : Nat) (mmap : Option Nat)
    (h : attr_size attr defaults = 0 ∨
         attr_size attr defaults % kStackAlign ≠ 0 ∨
         attr_guard attr defaults % PAGE_SIZE ≠ 0) :
    intercept_pthread_create attr defaults f a mmap = none := by
  simp only [intercept_pthread_create]
  rcases h with h | h | h
  · simp [h]
  · rcases eq_or_ne (attr_size attr defaults) 0 with h0 | h0
    · simp [h0]
    · simp [h0, h]
  · rcases eq_or_ne (attr_size attr defaults) 0 with h0 | h0
    · simp [h0]
    · rcases eq_or_ne (attr_size attr defaults % kStackAlign) 0 with h1 | h1
      · simp [h0, h1, h]
      · simp [h0, h1]

/-- Witness for C5: a requested stack size of 8 bytes (not 16-aligned)
makes the interceptor abort. -/
theorem C5_validation_fatal_w :
    intercept_pthread_create (some (8, 0)) (0, 0) 1 2 (some 4096) = none :=
  C5_validation_fatal (some (8, 0)) (0, 0) 1 2 (some 4096)
    (Or.inr (Or.inl (by decide)))

/-- C6 counterexample: with a validated size of 16 bytes — smaller than the
40-byte handoff record — the interceptor does not abort: it returns
normally, having placed the record at address `69608`, below the usable
region's base `69632` (inside the guard area).  This refutes the claim
that the process aborts with an integrity-check failure before the record
is written. -/
theorem C6_counterexample :
    (16 : Nat) < sizeofTinfo ∧
    intercept_pthread_create (some (16, 4096)) (0, 0) 7 42 (some 65536) =
      some { alloc := { mappingStart := 65536
                        mappingSize := 4112
                        protStart := 65536
                        protSize := 4096
                        base := 69632 }
             tinfoAddr := 69608
             ti := { start_routine := 7
                     start_routine_arg := 42
                     unsafe_stack_start := 69632
                     unsafe_stack_size := 16
                     unsafe_stack_guard := 4096 } } ∧
    (69608 : Int) < 69632 :=
  ⟨by decide, by decide, by decide⟩

/-- C6 as amended: the interceptor performs no handoff-record overflow
check.  Whenever the three validations pass and the mapping succeeds, it
returns normally with the record placed at `base + size - sizeofTinfo`;
when `size < sizeofTinfo` that address lies strictly below the usable
region's base (inside the guard area), and no abort happens before the
record is written. -/
theorem C6_no_record_overflow_check (size guard f a addr : Nat)
    (d : Nat × Nat)
    (h0 : size ≠ 0) (h1 : size % kStackAlign = 0)
    (h2 : guard % PAGE_SIZE = 0) (h3 : size ≤ (size + guard) % wordSize) :
    (intercept_pthread_create (some (size, guard)) d f a
      (some addr)).isSome = true ∧
    ∀ r, intercept_pthread_create (some (size, guard)) d f a (some addr) =
        some r →
      r.tinfoAddr = (r.alloc.base : Int) + size - sizeofTinfo ∧
      (size < sizeofTinfo → r.tinfoAddr < (r.alloc.base : Int)) := by
  constructor
  · have hnot : ¬ ((size + guard) % wordSize < size) := by omega
    simp [intercept_pthread_create, attr_size, attr_guard,
      unsafe_stack_alloc, h0, h1, h2, hnot]
  · intro r hr
    obtain ⟨-, -, -, -, haddr, -⟩ := intercept_eq_some hr
    constructor
    · rw [haddr]
      simp [attr_size]
    · intro hlt
      rw [haddr]
      simp only [attr_size, sizeofTinfo] at hlt ⊢
      omega

/-- Witness for C6 as amended: at size 16, guard 4096 the interceptor
returns normally. -/
theorem C6_no_record_overflow_check_w :
    (intercept_pthread_create (some (16, 4096)) (0, 0) 7 42
      (some 65536)).isSome = true :=
  (C6_no_record_overflow_check 16 4096 7 42 65536 (0, 0) (by decide)
    (by decide) (by decide) (by decide)).1

lemma init_eq_some {rl : RlimitResult} {mmap : Option Nat}
    {s s1 : ThreadState} {ar : AllocResult}
    (h : safestack_init rl mmap s = some (s1, ar)) :
    unsafe_stack_alloc (rlimit_main_size rl) 4096 mmap = some ar ∧
    unsafe_stack_setup ar.base (rlimit_main_size rl) 4096 s = some s1 := by
  unfold safestack_init at h
  split at h
  · simp at h
  · rename_i ar2 halloc
    split at h
    · simp at h
    · rename_i s2 hsetup
      rw [Option.some_inj, Prod.mk.injEq] at h
      obtain ⟨rfl, rfl⟩ := h
      exact ⟨halloc, hsetup⟩

/-- C7: the process-wide initializer installs the main thread's region
with usable size equal to the finite stack rlimit when the query succeeds
and is finite, and equal to `kDefaultUnsafeStackSize` when the query fails
or reports infinity; the guard size is 4096 in all cases. -/
theorem C7_init_main_sizes (rl : RlimitResult) (mmap : Option Nat)
    (s s1 : ThreadState) (ar : AllocResult)
    (h : safestack_init rl mmap s = some (s1, ar)) :
    s1.unsafe_stack_guard = 4096 ∧
    ar.protSize = 4096 ∧
    (∀ cur, rl = RlimitResult.finite cur → s1.unsafe_stack_size = cur) ∧
    ((rl = RlimitResult.fail ∨ rl = RlimitResult.infinity) →
        s1.unsafe_stack_size = kDefaultUnsafeStackSize) := by
  obtain ⟨halloc, hsetup⟩ := init_eq_some h
  obtain ⟨heq, -⟩ := setup_eq_some hsetup
  subst heq
  obtain ⟨-, -, har⟩ := alloc_eq_some halloc
  refine ⟨rfl, ?_, ?_, ?_⟩
  · rw [har]
  · intro cur hrl
    subst hrl
    rfl
  · intro hrl
    rcases hrl with rfl | rfl <;> rfl

/-- Witness for C7: with the rlimit reported as infinity, the installed
main-thread usable size is the fixed default constant. -/
theorem C7_init_main_sizes_w :
    (⟨0x2802000, 8192, 0x2800000, 4096, 0⟩ :
      ThreadState).unsafe_stack_size = kDefaultUnsafeStackSize :=
  (C7_init_main_sizes RlimitResult.infinity (some 4096) initialThreadState
    ⟨0x2802000, 8192, 0x2800000, 4096, 0⟩
    ⟨4096, 0x2801000, 4096, 4096, 8192⟩ (by decide)).2.2.2 (Or.inr rfl)

/-- C8: the main thread's region is never released during normal process
execution: the initializer leaves the cleanup key unarmed (null), arming
happens only in the trampoline of intercepted threads, and from the
initializer's resulting state any number of destructor passes changes
nothing and performs zero unmaps. -/
theorem C8_main_region_never_released (rl : RlimitResult) (mmap : Option Nat)
    (s1 : ThreadState) (ar : AllocResult)
    (h : safestack_init rl mmap initialThreadState = some (s1, ar)) :
    s1.cleanup_key_value = 0 ∧
    (∀ ti sem s r, thread_start ti sem s = some r →
        r.state.cleanup_key_value = 1) ∧
    (∀ n, runPasses n s1 = (s1, 0)) := by
  obtain ⟨halloc, hsetup⟩ := init_eq_some h
  obtain ⟨heq, -⟩ := setup_eq_some hsetup
  subst heq
  refine ⟨rfl, ?_, ?_⟩
  · intro ti sem s r hst
    obtain ⟨s2, -, heq2⟩ := thread_start_eq_some hst
    subst heq2
    rfl
  · intro n
    exact runPasses_key_zero n _ rfl

/-- Witness for C8: after a concrete initialization, five destructor
passes change nothing and release nothing. -/
theorem C8_main_region_never_released_w :
    runPasses 5 ⟨0x2802000, 8192, 0x2800000, 4096, 0⟩ =
      (⟨0x2802000, 8192, 0x2800000, 4096, 0⟩, 0) :=
  (C8_main_region_never_released RlimitResult.infinity (some 4096)
    ⟨0x2802000, 8192, 0x2800000, 4096, 0⟩
    ⟨4096, 0x2801000, 4096, 4096, 8192⟩ (by decide)).2.2 5

/-- C9 counterexample: on the terminal cleanup pass (counter 4) from a
state with a region installed, the handler does release the region, but it
leaves the region-size, guard-size and current-stack-pointer fields at
their old non-zero values — refuting the claim that all fields of the
per-thread stack state are cleared. -/
theorem C9_counterexample :
    ((thread_cleanup_handler 4 ⟨1000, 8192, 16, 4096, 0⟩).2).isSome = true ∧
    (thread_cleanup_handler 4 ⟨1000, 8192, 16, 4096, 0⟩).1.unsafe_stack_size
      = 16 ∧
    (thread_cleanup_handler 4 ⟨1000, 8192, 16, 4096, 0⟩).1.unsafe_stack_guard
      = 4096 ∧
    (thread_cleanup_handler 4
        ⟨1000, 8192, 16, 4096, 0⟩).1.safestack_unsafe_stack_ptr = 1000 :=
  ⟨by decide, by decide, by decide, by decide⟩

/-- C9 as amended: on the terminal cleanup pass the handler releases the
thread's region (unmapping guard plus usable range) and clears only the
region-start field; the region size, guard size and current-stack-pointer
slot keep their values, and no other state is modified. -/
theorem C9_terminal_releases_clears_start (iter : Nat) (s : ThreadState)
    (h : PTHREAD_DESTRUCTOR_ITERATIONS ≤ iter)
    (hs : s.unsafe_stack_start ≠ 0) :
    thread_cleanup_handler iter s =
      ({ s with unsafe_stack_start := 0 },
       some { start := subMod s.unsafe_stack_start s.unsafe_stack_guard
              size := (s.unsafe_stack_size + s.unsafe_stack_guard) %
                wordSize }) := by
  simp only [thread_cleanup_handler, unsafe_stack_free]
  rw [if_neg (Nat.not_lt.mpr h), if_pos hs]

/-- Witness for C9 as amended at a concrete terminal pass. -/
theorem C9_terminal_releases_clears_start_w :
    thread_cleanup_handler 4 ⟨1000, 8192, 16, 4096, 0⟩ =
      ({ (⟨1000, 8192, 16, 4096, 0⟩ : ThreadState) with
          unsafe_stack_start := 0 },
       some { start := subMod 8192 4096, size := (16 + 4096) % wordSize }) :=
  C9_terminal_releases_clears_start 4 ⟨1000, 8192, 16, 4096, 0⟩ (by decide)
    (by decide)
